import Mathlib

/-
Verification of the automation-engine endpoint `execute_flow` of
`src/main.py` (lines 392-438).  The engine receives `nodes` and `edges`
(lists of JSON objects, as parsed by pydantic into `List[Dict[str, Any]]`)
and a `payload` dict, walks the graph from each start node and returns a
log of events plus the final context.

Modelling choices, stated once here:
* JSON/Python values are modelled by `JVal` (null, bool, int, str, object).
  List values do not occur in any behaviour the claims touch and are
  omitted from the universe of values.
* A Python dict is an association list `PyDict` with first-match lookup
  (Python dicts have unique keys; JSON parsing keeps one binding per key).
* Python exceptions that `execute_flow` does not catch are modelled with
  `Except String`; the string names the exception.
* The timestamps that `log` prepends come from the wall clock
  (`now_utc().isoformat()`), which is I/O and outside a pure model; a log
  entry is therefore modelled as the message part only, i.e. the text after
  the "[<timestamp>] " prefix.
* `eval(cond, {}, {"ctx": ctx})` is modelled by `pyEval`, a
  parser/evaluator for the expression fragment the flows use: literals
  (integers, single-quoted strings, True/False/None), the name `ctx`,
  attribute access, subscripting, one comparison operator, and
  zero-argument calls.  Python semantics are followed on this fragment;
  in particular attribute access on a dict value raises AttributeError (a
  dict has no data attributes), a comparison of an int with a str under
  an order operator raises TypeError, and calling `exit()` or `quit()`
  (available because eval injects `__builtins__` into the empty globals)
  raises SystemExit.  A raised exception is a `PyExc`: the engine's
  `except Exception` catches the `exc` class (Exception subclasses:
  SyntaxError, NameError, AttributeError, KeyError, TypeError) but NOT the
  `base` class (BaseException outside Exception, such as SystemExit),
  which escapes and aborts the call.  Strings outside the fragment are
  reported as a (caught) SyntaxError; bare `exit` without a call is out of
  fragment (Python resolves it to the truthy Quitter object) - only `ctx`
  resolves as a name.
* Python hashing: dict values are unhashable.  The dict comprehension
  `node_map = \x7bn.get("id"): n ...\x7d` therefore raises TypeError when
  some node's id is a dict, and the loop guard `current_id not in visited`
  raises TypeError when a truthy dict value (e.g. from an edge's `to`
  field) becomes the current id.  Both uncaught paths are modelled.
-/

namespace AutomationEngine

/-- A JSON-like runtime value as handled by the endpoint. -/
inductive JVal where
  | null : JVal
  | bool : Bool → JVal
  | int : Int → JVal
  | str : String → JVal
  | obj : List (String × JVal) → JVal
  deriving Repr

mutual

/-- Decidable equality on values (Python `==` on the modelled fragment). -/
def JVal.decEq : (a b : JVal) → Decidable (a = b)
  | .null, .null => isTrue rfl
  | .null, .bool _ => isFalse nofun
  | .null, .int _ => isFalse nofun
  | .null, .str _ => isFalse nofun
  | .null, .obj _ => isFalse nofun
  | .bool _, .null => isFalse nofun
  | .bool a, .bool b =>
    if h : a = b then isTrue (by rw [h]) else isFalse (fun c => by cases c; exact h rfl)
  | .bool _, .int _ => isFalse nofun
  | .bool _, .str _ => isFalse nofun
  | .bool _, .obj _ => isFalse nofun
  | .int _, .null => isFalse nofun
  | .int _, .bool _ => isFalse nofun
  | .int a, .int b =>
    if h : a = b then isTrue (by rw [h]) else isFalse (fun c => by cases c; exact h rfl)
  | .int _, .str _ => isFalse nofun
  | .int _, .obj _ => isFalse nofun
  | .str _, .null => isFalse nofun
  | .str _, .bool _ => isFalse nofun
  | .str _, .int _ => isFalse nofun
  | .str a, .str b =>
    if h : a = b then isTrue (by rw [h]) else isFalse (fun c => by cases c; exact h rfl)
  | .str _, .obj _ => isFalse nofun
  | .obj _, .null => isFalse nofun
  | .obj _, .bool _ => isFalse nofun
  | .obj _, .int _ => isFalse nofun
  | .obj _, .str _ => isFalse nofun
  | .obj a, .obj b =>
    match JVal.decEqList a b with
    | isTrue h => isTrue (by rw [h])
    | isFalse h => isFalse (fun c => by cases c; exact h rfl)

/-- Decidable equality on key-value lists. -/
def JVal.decEqList : (a b : List (String × JVal)) → Decidable (a = b)
  | [], [] => isTrue rfl
  | [], _ :: _ => isFalse nofun
  | _ :: _, [] => isFalse nofun
  | (k1, v1) :: r1, (k2, v2) :: r2 =>
    if hk : k1 = k2 then
      match JVal.decEq v1 v2 with
      | isTrue hv =>
        match JVal.decEqList r1 r2 with
        | isTrue hr => isTrue (by rw [hk, hv, hr])
        | isFalse hr => isFalse (fun c => by cases c; exact hr rfl)
      | isFalse hv => isFalse (fun c => by cases c; exact hv rfl)
    else isFalse (fun c => by cases c; exact hk rfl)

end

instance : DecidableEq JVal := JVal.decEq

/-- A Python dict with string keys, as pydantic produces for each node and
edge and for the payload. -/
abbrev PyDict := List (String × JVal)

/-- Python `d.get(k)`: `some` value or `none` when the key is absent. -/
def dget (d : PyDict) (k : String) : Option JVal :=
  (d.find? (fun kv => kv.fst == k)).map (fun kv => kv.snd)

/-- Python `d.get(k, default)`. -/
def dgetD (d : PyDict) (k : String) (v : JVal) : JVal :=
  (dget d k).getD v

/-- Python truthiness, `bool(v)`. -/
def truthy : JVal → Bool
  | .null => false
  | .bool b => b
  | .int n => n != 0
  | .str s => s != ""
  | .obj kvs => kvs != []

/-- Whether a value is a dict.  Dicts are the unhashable values of the
modelled universe: hashing one (as a dict key or in a set-membership
test) raises TypeError. -/
def isObj : JVal → Bool
  | .obj _ => true
  | _ => false

/-- A raised Python exception, split by what the engine's
`except Exception` catches: `exc` is an Exception subclass (caught),
`base` a BaseException outside Exception, such as SystemExit (not
caught). -/
inductive PyExc where
  | exc (msg : String)
  | base (msg : String)
  deriving Repr, DecidableEq

mutual

/-- Python `str(v)` as an f-string renders a nested value (`repr` form for
values inside containers, `True`/`False`/`None` spelling). -/
def pyRepr : JVal → String
  | .null => "None"
  | .bool true => "True"
  | .bool false => "False"
  | .int n => toString n
  | .str s => "'" ++ s ++ "'"
  | .obj kvs => "\x7b" ++ pyReprKVs kvs ++ "\x7d"

/-- Repr of the comma-separated entries of a dict. -/
def pyReprKVs : List (String × JVal) → String
  | [] => ""
  | [kv] => "'" ++ kv.fst ++ "': " ++ pyRepr kv.snd
  | kv :: rest => "'" ++ kv.fst ++ "': " ++ pyRepr kv.snd ++ ", " ++ pyReprKVs rest

end

/-- Python `str(v)` as used by an f-string placeholder: a string renders as
its own text, every other value by its repr. -/
def pyStr : JVal → String
  | .str s => s
  | .null => "None"
  | .bool b => pyRepr (.bool b)
  | .int n => pyRepr (.int n)
  | .obj kvs => pyRepr (.obj kvs)

/-- Tokens of the condition-expression fragment. -/
inductive Tok where
  | int (n : Nat)
  | str (s : String)
  | ident (s : String)
  | dot | lbrack | rbrack | lparen | rparen
  | opEq | opNe | opLt | opLe | opGt | opGe
  deriving Repr, DecidableEq

/-- Numeric value of a digit list. -/
def digitsVal (ds : List Char) : Nat :=
  ds.foldl (fun a c => a * 10 + (c.toNat - 48)) 0

/-- Whether a character may continue an identifier. -/
def isIdentChar (c : Char) : Bool := c.isAlphanum || c == '_'

/-- Tokenizer for the expression fragment, with explicit fuel (one unit per
consumed chunk of input; callers pass more than enough). -/
def tokenize : Nat → List Char → Option (List Tok)
  | 0, _ => none
  | _ + 1, [] => some []
  | fuel + 1, '=' :: '=' :: cs => (tokenize fuel cs).map (fun ts => Tok.opEq :: ts)
  | fuel + 1, '!' :: '=' :: cs => (tokenize fuel cs).map (fun ts => Tok.opNe :: ts)
  | fuel + 1, '<' :: '=' :: cs => (tokenize fuel cs).map (fun ts => Tok.opLe :: ts)
  | fuel + 1, '>' :: '=' :: cs => (tokenize fuel cs).map (fun ts => Tok.opGe :: ts)
  | fuel + 1, '<' :: cs => (tokenize fuel cs).map (fun ts => Tok.opLt :: ts)
  | fuel + 1, '>' :: cs => (tokenize fuel cs).map (fun ts => Tok.opGt :: ts)
  | fuel + 1, '.' :: cs => (tokenize fuel cs).map (fun ts => Tok.dot :: ts)
  | fuel + 1, '[' :: cs => (tokenize fuel cs).map (fun ts => Tok.lbrack :: ts)
  | fuel + 1, ']' :: cs => (tokenize fuel cs).map (fun ts => Tok.rbrack :: ts)
  | fuel + 1, '(' :: cs => (tokenize fuel cs).map (fun ts => Tok.lparen :: ts)
  | fuel + 1, ')' :: cs => (tokenize fuel cs).map (fun ts => Tok.rparen :: ts)
  | fuel + 1, '\'' :: cs =>
    let body := cs.takeWhile (fun d => d != '\'')
    match cs.dropWhile (fun d => d != '\'') with
    | '\'' :: rest => (tokenize fuel rest).map (fun ts => Tok.str (String.mk body) :: ts)
    | _ => none
  | fuel + 1, c :: cs =>
    if c == ' ' then tokenize fuel cs
    else if c.isDigit then
      let ds := (c :: cs).takeWhile Char.isDigit
      let rest := (c :: cs).dropWhile Char.isDigit
      (tokenize fuel rest).map (fun ts => Tok.int (digitsVal ds) :: ts)
    else if c.isAlpha || c == '_' then
      let ds := (c :: cs).takeWhile isIdentChar
      let rest := (c :: cs).dropWhile isIdentChar
      (tokenize fuel rest).map (fun ts => Tok.ident (String.mk ds) :: ts)
    else none

/-- Comparison operators of the fragment. -/
inductive CmpOp where
  | eq | ne | lt | le | gt | ge
  deriving Repr, DecidableEq

/-- Abstract syntax of the expression fragment. -/
inductive PExp where
  | lit (v : JVal)
  | name (s : String)
  | attr (e : PExp) (a : String)
  | item (e : PExp) (k : PExp)
  | call (f : PExp)
  | cmp (op : CmpOp) (l : PExp) (r : PExp)
  deriving Repr

mutual

/-- Atoms: literals, names, parenthesised expressions. -/
def parseAtom : Nat → List Tok → Option (PExp × List Tok)
  | 0, _ => none
  | _ + 1, Tok.int n :: ts => some (PExp.lit (JVal.int n), ts)
  | _ + 1, Tok.str s :: ts => some (PExp.lit (JVal.str s), ts)
  | _ + 1, Tok.ident s :: ts =>
    if s == "True" then some (PExp.lit (JVal.bool true), ts)
    else if s == "False" then some (PExp.lit (JVal.bool false), ts)
    else if s == "None" then some (PExp.lit JVal.null, ts)
    else some (PExp.name s, ts)
  | fuel + 1, Tok.lparen :: ts =>
    match parseCmp fuel ts with
    | some (e, Tok.rparen :: ts2) => some (e, ts2)
    | _ => none
  | _ + 1, _ => none

/-- Attribute, subscript and zero-argument-call trailers after an atom. -/
def parseTrailers : Nat → PExp → List Tok → Option (PExp × List Tok)
  | 0, _, _ => none
  | fuel + 1, e, Tok.dot :: Tok.ident a :: ts => parseTrailers fuel (PExp.attr e a) ts
  | fuel + 1, e, Tok.lparen :: Tok.rparen :: ts => parseTrailers fuel (PExp.call e) ts
  | fuel + 1, e, Tok.lbrack :: ts =>
    match parseCmp fuel ts with
    | some (k, Tok.rbrack :: ts2) => parseTrailers fuel (PExp.item e k) ts2
    | _ => none
  | _ + 1, e, ts => some (e, ts)

/-- A postfix expression: an atom followed by trailers. -/
def parsePost : Nat → List Tok → Option (PExp × List Tok)
  | 0, _ => none
  | fuel + 1, ts =>
    match parseAtom fuel ts with
    | some (e, ts2) => parseTrailers fuel e ts2
    | none => none

/-- A comparison (at most one operator, as in the flows' conditions). -/
def parseCmp : Nat → List Tok → Option (PExp × List Tok)
  | 0, _ => none
  | fuel + 1, ts =>
    match parsePost fuel ts with
    | none => none
    | some (l, ts2) =>
      match ts2 with
      | Tok.opEq :: ts3 => (parsePost fuel ts3).map (fun pr => (PExp.cmp CmpOp.eq l pr.1, pr.2))
      | Tok.opNe :: ts3 => (parsePost fuel ts3).map (fun pr => (PExp.cmp CmpOp.ne l pr.1, pr.2))
      | Tok.opLt :: ts3 => (parsePost fuel ts3).map (fun pr => (PExp.cmp CmpOp.lt l pr.1, pr.2))
      | Tok.opLe :: ts3 => (parsePost fuel ts3).map (fun pr => (PExp.cmp CmpOp.le l pr.1, pr.2))
      | Tok.opGt :: ts3 => (parsePost fuel ts3).map (fun pr => (PExp.cmp CmpOp.gt l pr.1, pr.2))
      | Tok.opGe :: ts3 => (parsePost fuel ts3).map (fun pr => (PExp.cmp CmpOp.ge l pr.1, pr.2))
      | _ => some (l, ts2)

end

/-- Parse a whole condition string (all tokens must be consumed). -/
def parseExpr (s : String) : Option PExp :=
  match tokenize (s.length + 1) s.data with
  | none => none
  | some toks =>
    match parseCmp (3 * toks.length + 9) toks with
    | some (e, []) => some e
    | _ => none

/-- Whether an order operator holds of a comparison result. -/
def orderHolds (op : CmpOp) (o : Ordering) : Bool :=
  match op, o with
  | .lt, .lt => true
  | .le, .lt => true
  | .le, .eq => true
  | .gt, .gt => true
  | .ge, .gt => true
  | .ge, .eq => true
  | .eq, .eq => true
  | .ne, .lt => true
  | .ne, .gt => true
  | _, _ => false

/-- Python comparison on the fragment's values: `==`/`!=` are equality on
any two values; `<`,`<=`,`>`,`>=` are defined for int-int and str-str
operands (code-point lexicographic for strings) and raise TypeError
otherwise, as Python does for, e.g., an int against a str. -/
def pyCompare : CmpOp → JVal → JVal → Except PyExc JVal
  | .eq, a, b => .ok (.bool (decide (a = b)))
  | .ne, a, b => .ok (.bool (! decide (a = b)))
  | op, .int a, .int b => .ok (.bool (orderHolds op (compare a b)))
  | op, .str a, .str b => .ok (.bool (orderHolds op (compare a b)))
  | _, _, _ => .error (.exc "TypeError: unsupported comparison")

/-- Evaluation of a parsed expression against the locals `ctx` binding, as
`eval(cond, \x7b\x7d, \x7b"ctx": ctx\x7d)` does.  Attribute access raises
AttributeError (a dict carries no data attributes; method objects are
outside the fragment); subscripting is defined on dict values with string
keys present; calling the builtin quitters `exit()` / `quit()` raises
SystemExit, a BaseException outside Exception. -/
def evalP (ctx : PyDict) : PExp → Except PyExc JVal
  | .lit v => .ok v
  | .name s =>
    if s == "ctx" then .ok (.obj ctx)
    else .error (.exc ("NameError: name " ++ s ++ " is not defined"))
  | .attr e a =>
    match evalP ctx e with
    | .error m => .error m
    | .ok _ => .error (.exc ("AttributeError: " ++ a))
  | .item e k =>
    match evalP ctx e with
    | .error m => .error m
    | .ok v =>
      match evalP ctx k with
      | .error m => .error m
      | .ok kv =>
        match v, kv with
        | .obj kvs, .str s =>
          match dget kvs s with
          | some r => .ok r
          | none => .error (.exc ("KeyError: " ++ s))
        | .obj _, _ => .error (.exc "KeyError: non-string key")
        | _, _ => .error (.exc "TypeError: value is not subscriptable")
  | .call f =>
    match f with
    | .name "exit" => .error (.base "SystemExit")
    | .name "quit" => .error (.base "SystemExit")
    | _ =>
      match evalP ctx f with
      | .error m => .error m
      | .ok _ => .error (.exc "TypeError: value is not callable")
  | .cmp op l r =>
    match evalP ctx l with
    | .error m => .error m
    | .ok a =>
      match evalP ctx r with
      | .error m => .error m
      | .ok b => pyCompare op a b

/-- The engine's `eval(cond, \x7b\x7d, \x7b"ctx": ctx\x7d)` call on a string
condition: parse, then evaluate; a string outside the fragment is a
(caught) SyntaxError. -/
def pyEval (expr : String) (ctx : PyDict) : Except PyExc JVal :=
  match parseExpr expr with
  | none => .error (.exc ("SyntaxError: invalid syntax in " ++ expr))
  | some e => evalP ctx e

/-- The values occurring as node ids: `n.get("id")` over the node list
(nodes without an id contribute the dict key `None`, which the loop guard
can never reach, so it is dropped here). -/
def nodeIds (nodes : List PyDict) : List JVal :=
  nodes.filterMap (fun n => dget n "id")

/-- Python lookup in the comprehension-built index
`node_map = \x7bn.get("id"): n for n in payload.nodes\x7d`: a later node
with the same id overwrites an earlier one, so lookup finds the last node
carrying this id. -/
def node_map_get (nodes : List PyDict) (v : JVal) : Option PyDict :=
  nodes.reverse.find? (fun n => decide (dget n "id" = some v))

/-- The code's `next_edges` comprehension: the edges whose `from` field
equals the current id. -/
def next_edges (edges : List PyDict) (cur : JVal) : List PyDict :=
  edges.filter (fun e => decide (dget e "from" = some cur))

/-- The code's `current_id = next_edges[0]["to"] if next_edges else None`:
`none` when no edge matches; a KeyError (uncaught) when the first matching
edge has no `to` field. -/
def nextCurrent (edges : List PyDict) (cur : JVal) : Except String (Option JVal) :=
  match next_edges edges cur with
  | [] => .ok none
  | e :: _ =>
    match dget e "to" with
    | some v => .ok (some v)
    | none => .error "KeyError: to"

/-- Python `cfg.get(k, default)` where `cfg` may be any value: a non-dict
raises AttributeError (ints, strings, bools and None have no `get`
attribute), which `execute_flow` does not catch. -/
def cfgGetD (cfg : JVal) (k : String) (d : JVal) : Except String JVal :=
  match cfg with
  | .obj kvs => .ok (dgetD kvs k d)
  | _ => .error "AttributeError: get"

/-- The condition evaluation `ok = bool(eval(cond, ...))` inside its
`try/except Exception`: an Exception-class failure yields False (a
non-string condition value is a TypeError inside `eval`, likewise
caught), but a BaseException outside Exception, such as SystemExit from
`exit()`, is NOT caught and propagates out of the loop. -/
def condOk (cond : JVal) (ctx : PyDict) : Except String Bool :=
  match cond with
  | .str s =>
    match pyEval s ctx with
    | .ok v => .ok (truthy v)
    | .error (.exc _) => .ok false
    | .error (.base m) => .error m
  | _ => .ok false

/-- One execution of the while-loop body for a resolved node: the trace
messages it appends, and whether it breaks this path (a condition that
evaluated false).  Errors are the body's uncaught exceptions. -/
def stepNode (node : PyDict) (ctx : PyDict) : Except String (List String × Bool) :=
  let ntype := dget node "type"
  let cfg := dgetD node "config" (.obj [])
  if ntype = some (.str "trigger") then
    match cfgGetD cfg "name" (.str "start") with
    | .error m => .error m
    | .ok nm => .ok (["Trigger: " ++ pyStr nm], false)
  else if ntype = some (.str "condition") then
    match cfgGetD cfg "expr" (.str "True") with
    | .error m => .error m
    | .ok cond =>
      match condOk cond ctx with
      | .error m => .error m
      | .ok ok =>
        .ok (["Condition '" ++ pyStr cond ++ "' -> " ++ pyStr (.bool ok)], ! ok)
  else if ntype = some (.str "action") then
    match cfgGetD cfg "name" (.str "noop") with
    | .error m => .error m
    | .ok act =>
      if act = .str "send_message" then
        match cfgGetD cfg "text" (.str "") with
        | .error m => .error m
        | .ok t => .ok (["Action: send_message -> " ++ pyStr t], false)
      else if act = .str "delay" then
        match cfgGetD cfg "ms" (.int 0) with
        | .error m => .error m
        | .ok msv => .ok (["Action: delay " ++ pyStr msv ++ "ms (simulated)"], false)
      else .ok (["Action: " ++ pyStr act], false)
  else .ok ([], false)

/-- Key step of the loop's termination: visiting a fresh id that resolves
to a node shrinks the set of unvisited node ids. -/
theorem length_filter_notMem_cons_lt {α : Type} [DecidableEq α] (l : List α) (a : α)
    (vis : List α) (hal : a ∈ l) (hav : a ∉ vis) :
    (l.filter (fun v => decide (v ∉ a :: vis))).length <
      (l.filter (fun v => decide (v ∉ vis))).length := by
  induction l with
  | nil => cases hal
  | cons x xs ih =>
    by_cases hxa : x = a
    · subst hxa
      have hq : (decide (x ∉ x :: vis)) = false := by simp
      have hp : (decide (x ∉ vis)) = true := by simpa using hav
      rw [List.filter_cons, List.filter_cons, hq, hp]
      have hmono : (xs.filter (fun v => decide (v ∉ x :: vis))).Sublist
          (xs.filter (fun v => decide (v ∉ vis))) := by
        apply List.monotone_filter_right
        intro b hb
        simp only [decide_eq_true_eq] at hb ⊢
        intro hbv
        exact hb (List.mem_cons_of_mem _ hbv)
      exact Nat.lt_succ_of_le hmono.length_le
    · have haxs : a ∈ xs := by
        rcases List.mem_cons.mp hal with h | h
        · exact absurd h.symm hxa
        · exact h
      have hsame : (decide (x ∉ a :: vis)) = (decide (x ∉ vis)) := by
        by_cases hxv : x ∈ vis
        · simp [hxv]
        · simp [hxv, hxa]
      rw [List.filter_cons, List.filter_cons, hsame]
      by_cases hxv : x ∈ vis
      · have : (decide (x ∉ vis)) = false := by simp [hxv]
        rw [this]
        exact ih haxs
      · have : (decide (x ∉ vis)) = true := by simp [hxv]
        rw [this]
        simpa using Nat.succ_lt_succ (ih haxs)

/-- A successful `node_map_get` means the id occurs among the node ids. -/
theorem mem_nodeIds_of_node_map_get {nodes : List PyDict} {v : JVal} {node : PyDict}
    (h : node_map_get nodes v = some node) : v ∈ nodeIds nodes := by
  have hmem := List.mem_of_find?_eq_some h
  have hpred := List.find?_some h
  simp only [decide_eq_true_eq] at hpred
  exact List.mem_filterMap.mpr ⟨node, List.mem_reverse.mp hmem, hpred⟩

/-- The while loop of `execute_flow` for one start node: walk from
`current`, appending to `logs`, until the id is falsy, already visited or
unknown, a condition fails, or no outgoing edge matches; an uncaught
exception aborts the whole call.  The guard `current_id not in visited`
hashes the current id, so a truthy dict value there raises TypeError
(a falsy one, such as the empty dict, exits the loop before hashing). -/
def runPath (nodes edges : List PyDict) (ctx : PyDict) :
    Option JVal → List JVal → List String → Except String (List String)
  | none, _, logs => .ok logs
  | some cur, visited, logs =>
    if truthy cur = false then .ok logs
    else if isObj cur then .error "TypeError: unhashable type: 'dict'"
    else if cur ∈ visited then .ok logs
    else
      match hn : node_map_get nodes cur with
      | none => .ok logs
      | some node =>
        match stepNode node ctx with
        | .error m => .error m
        | .ok (msgs, brk) =>
          if brk then .ok (logs ++ msgs)
          else
            match nextCurrent edges cur with
            | .error m => .error m
            | .ok nxt => runPath nodes edges ctx nxt (cur :: visited) (logs ++ msgs)
termination_by current visited _ =>
  ((nodeIds nodes).filter (fun v => decide (v ∉ visited))).length
decreasing_by
  exact length_filter_notMem_cons_lt (nodeIds nodes) cur visited
    (mem_nodeIds_of_node_map_get hn) (by assumption)

/-- Number of iterations of the same while loop (how often the loop body is
entered, counting the final iteration that breaks or fails; a TypeError
raised in the guard itself enters no iteration): `runPath` instrumented
with a counter, recursion for recursion. -/
def pathSteps (nodes edges : List PyDict) (ctx : PyDict) :
    Option JVal → List JVal → Nat
  | none, _ => 0
  | some cur, visited =>
    if truthy cur = false then 0
    else if isObj cur then 0
    else if cur ∈ visited then 0
    else
      match hn : node_map_get nodes cur with
      | none => 1
      | some node =>
        match stepNode node ctx with
        | .error _ => 1
        | .ok (_, brk) =>
          if brk then 1
          else
            match nextCurrent edges cur with
            | .error _ => 1
            | .ok nxt => 1 + pathSteps nodes edges ctx nxt (cur :: visited)
termination_by current visited =>
  ((nodeIds nodes).filter (fun v => decide (v ∉ visited))).length
decreasing_by
  exact length_filter_notMem_cons_lt (nodeIds nodes) cur visited
    (mem_nodeIds_of_node_map_get hn) (by assumption)

/-- The code's start-node selection,
`[n for n in payload.nodes if n.get("type") == "trigger"] or payload.nodes[:1]`:
Python `or` keeps the left list when it is non-empty. -/
def startNodes (nodes : List PyDict) : List PyDict :=
  let ts := nodes.filter (fun n => decide (dget n "type" = some (.str "trigger")))
  if ts = [] then nodes.take 1 else ts

/-- The `for start in start_nodes` loop: each start node's traversal begins
at `start.get("id")` with a fresh visited set, sharing the log list. -/
def runStarts (nodes edges : List PyDict) (ctx : PyDict) :
    List PyDict → List String → Except String (List String)
  | [], logs => .ok logs
  | s :: rest, logs =>
    match runPath nodes edges ctx (dget s "id") [] logs with
    | .error m => .error m
    | .ok logs2 => runStarts nodes edges ctx rest logs2

/-- Whether a node's id value is hashable: the comprehension
`node_map = \x7bn.get("id"): n ...\x7d` hashes every `n.get("id")` as a
dict key, so a dict-valued id raises TypeError before any traversal
(missing ids hash fine as the key `None`). -/
def hashableId (n : PyDict) : Bool :=
  match dget n "id" with
  | some v => ! isObj v
  | none => true

/-- The endpoint body of `POST /api/automation/execute` (src/main.py,
`execute_flow`): copy the payload into the context, build the node index
(raising TypeError if some node id is unhashable), select start nodes,
traverse, and return the logs and the context.  The model returns the
fields `logs` and `context` of the JSON reply; `ok` is the constant True.
The context is the payload copy: no branch of the loop body ever writes to
`ctx`. -/
def execute_flow (nodes edges : List PyDict) (payload : PyDict) :
    Except String (List String × PyDict) :=
  if nodes.all hashableId then
    match runStarts nodes edges payload (startNodes nodes) [] with
    | .error m => .error m
    | .ok logs => .ok (logs, payload)
  else .error "TypeError: unhashable type: 'dict'"

section StepLemmas

variable (nodes edges : List PyDict) (ctx : PyDict)

/-- Loop not entered: a falsy (`None`) current id. -/
theorem runPath_noneId (visited : List JVal) (logs : List String) :
    runPath nodes edges ctx none visited logs = .ok logs := by
  rw [runPath.eq_def]

/-- Loop exits at a revisited hashable id: the cycle guard. -/
theorem runPath_visited (cur : JVal) (visited : List JVal) (logs : List String)
    (ho : isObj cur = false) (hv : cur ∈ visited) :
    runPath nodes edges ctx (some cur) visited logs = .ok logs := by
  rw [runPath.eq_def]
  by_cases ht : truthy cur = false <;> simp [ht, ho, hv]

/-- The node body broke the path (condition evaluated false). -/
theorem runPath_break (cur : JVal) (visited : List JVal) (logs : List String)
    (node : PyDict) (msgs : List String)
    (ht : truthy cur = true) (ho : isObj cur = false) (hv : cur ∉ visited)
    (hn : node_map_get nodes cur = some node)
    (hs : stepNode node ctx = .ok (msgs, true)) :
    runPath nodes edges ctx (some cur) visited logs = .ok (logs ++ msgs) := by
  rw [runPath.eq_def]
  simp only [ht, ho, hv, Bool.true_eq_false, Bool.false_eq_true,
    not_false_eq_true, if_false, if_true, ite_true, ite_false]
  split
  · rename_i heq
    rw [hn] at heq
    cases heq
  · rename_i node2 heq
    rw [hn] at heq
    injection heq with heq2
    subst heq2
    rw [hs]
    simp

/-- The first matching outgoing edge has no `to` field: KeyError aborts. -/
theorem runPath_edgeError (cur : JVal) (visited : List JVal) (logs : List String)
    (node : PyDict) (msgs : List String) (m : String)
    (ht : truthy cur = true) (ho : isObj cur = false) (hv : cur ∉ visited)
    (hn : node_map_get nodes cur = some node)
    (hs : stepNode node ctx = .ok (msgs, false))
    (he : nextCurrent edges cur = .error m) :
    runPath nodes edges ctx (some cur) visited logs = .error m := by
  rw [runPath.eq_def]
  simp only [ht, ho, hv, Bool.true_eq_false, Bool.false_eq_true,
    not_false_eq_true, if_false, if_true, ite_true, ite_false]
  split
  · rename_i heq
    rw [hn] at heq
    cases heq
  · rename_i node2 heq
    rw [hn] at heq
    injection heq with heq2
    subst heq2
    rw [hs, he]
    simp

/-- The loop advances to the first matching edge's target. -/
theorem runPath_cont (cur : JVal) (visited : List JVal) (logs : List String)
    (node : PyDict) (msgs : List String) (nxt : Option JVal)
    (ht : truthy cur = true) (ho : isObj cur = false) (hv : cur ∉ visited)
    (hn : node_map_get nodes cur = some node)
    (hs : stepNode node ctx = .ok (msgs, false))
    (he : nextCurrent edges cur = .ok nxt) :
    runPath nodes edges ctx (some cur) visited logs =
      runPath nodes edges ctx nxt (cur :: visited) (logs ++ msgs) := by
  rw [runPath.eq_def]
  simp only [ht, ho, hv, Bool.true_eq_false, Bool.false_eq_true,
    not_false_eq_true, if_false, if_true, ite_true, ite_false]
  split
  · rename_i heq
    rw [hn] at heq
    cases heq
  · rename_i node2 heq
    rw [hn] at heq
    injection heq with heq2
    subst heq2
    rw [hs, he]
    simp

/-- Counter counterpart: a loop that is not entered costs no iteration. -/
theorem pathSteps_noneId (visited : List JVal) :
    pathSteps nodes edges ctx none visited = 0 := by
  rw [pathSteps.eq_def]

/-- Counter counterpart of `runPath_falsy`. -/
theorem pathSteps_falsy (cur : JVal) (visited : List JVal)
    (ht : truthy cur = false) :
    pathSteps nodes edges ctx (some cur) visited = 0 := by
  rw [pathSteps.eq_def]
  simp [ht]

/-- Counter counterpart of `runPath_unhashable`: the guard raises before
the body is entered. -/
theorem pathSteps_unhashable (cur : JVal) (visited : List JVal)
    (ht : truthy cur = true) (ho : isObj cur = true) :
    pathSteps nodes edges ctx (some cur) visited = 0 := by
  rw [pathSteps.eq_def]
  simp [ht, ho]

/-- Counter counterpart of `runPath_visited`. -/
theorem pathSteps_visited (cur : JVal) (visited : List JVal)
    (ho : isObj cur = false) (hv : cur ∈ visited) :
    pathSteps nodes edges ctx (some cur) visited = 0 := by
  rw [pathSteps.eq_def]
  by_cases ht : truthy cur = false <;> simp [ht, ho, hv]

/-- Counter counterpart of `runPath_cont`: one more iteration. -/
theorem pathSteps_cont (cur : JVal) (visited : List JVal)
    (node : PyDict) (msgs : List String) (nxt : Option JVal)
    (ht : truthy cur = true) (ho : isObj cur = false) (hv : cur ∉ visited)
    (hn : node_map_get nodes cur = some node)
    (hs : stepNode node ctx = .ok (msgs, false))
    (he : nextCurrent edges cur = .ok nxt) :
    pathSteps nodes edges ctx (some cur) visited =
      1 + pathSteps nodes edges ctx nxt (cur :: visited) := by
  rw [pathSteps.eq_def]
  simp only [ht, ho, hv, Bool.true_eq_false, Bool.false_eq_true,
    not_false_eq_true, if_false, if_true, ite_true, ite_false]
  split
  · rename_i heq
    rw [hn] at heq
    cases heq
  · rename_i node2 heq
    rw [hn] at heq
    injection heq with heq2
    subst heq2
    rw [hs, he]
    simp

end StepLemmas

/-- One unfolding of `pathSteps` at a fresh truthy hashable id: either the
loop ends after this iteration, or it continues with the id marked
visited. -/
theorem pathSteps_step (nodes edges : List PyDict) (ctx : PyDict) (cur : JVal)
    (visited : List JVal) (ht : truthy cur = true) (ho : isObj cur = false)
    (hv : cur ∉ visited) :
    pathSteps nodes edges ctx (some cur) visited = 1 ∨
    ∃ node nxt, node_map_get nodes cur = some node ∧
      pathSteps nodes edges ctx (some cur) visited =
        1 + pathSteps nodes edges ctx nxt (cur :: visited) := by
  rw [pathSteps.eq_def]
  simp only [ht, ho, hv, Bool.true_eq_false, Bool.false_eq_true,
    not_false_eq_true, if_false, if_true, ite_true, ite_false]
  split
  · left; rfl
  · rename_i node heq
    split
    · left; rfl
    · rename_i msgs brk hs
      cases brk
      · simp only [Bool.false_eq_true, if_false, ite_false]
        split
        · left; rfl
        · rename_i nxt he
          right
          exact ⟨node, nxt, heq, rfl⟩
      · left; simp

/-- A node id that is not yet visited keeps the unvisited-id count positive. -/
theorem pos_measure_of_mem (nodes : List PyDict) (cur : JVal) (visited : List JVal)
    (hmem : cur ∈ nodeIds nodes) (hv : cur ∉ visited) :
    0 < ((nodeIds nodes).filter (fun v => decide (v ∉ visited))).length := by
  apply List.length_pos.mpr
  intro hnil
  have : cur ∈ (nodeIds nodes).filter (fun v => decide (v ∉ visited)) :=
    List.mem_filter.mpr ⟨hmem, by simpa using hv⟩
  rw [hnil] at this
  cases this

/-- The loop makes at most one iteration more than there are unvisited node
ids (strong induction on that count). -/
theorem pathSteps_le_aux (nodes edges : List PyDict) (ctx : PyDict) :
    ∀ (n : Nat) (current : Option JVal) (visited : List JVal),
      ((nodeIds nodes).filter (fun v => decide (v ∉ visited))).length ≤ n →
      pathSteps nodes edges ctx current visited ≤
        ((nodeIds nodes).filter (fun v => decide (v ∉ visited))).length + 1 := by
  intro n
  induction n with
  | zero =>
    intro current visited hle
    cases current with
    | none => rw [pathSteps_noneId]; omega
    | some cur =>
      by_cases ht : truthy cur = true
      · by_cases ho : isObj cur = true
        · rw [pathSteps_unhashable _ _ _ _ _ ht ho]; omega
        · have ho2 : isObj cur = false := by
            cases h2 : isObj cur
            · rfl
            · exact absurd h2 ho
          by_cases hv : cur ∈ visited
          · rw [pathSteps_visited _ _ _ _ _ ho2 hv]; omega
          · rcases pathSteps_step nodes edges ctx cur visited ht ho2 hv with h | ⟨node, nxt, hn, h⟩
            · rw [h]; omega
            · have hmem := mem_nodeIds_of_node_map_get hn
              have := pos_measure_of_mem nodes cur visited hmem hv
              omega
      · have ht2 : truthy cur = false := by
          cases h2 : truthy cur
          · rfl
          · exact absurd h2 ht
        rw [pathSteps_falsy _ _ _ _ _ ht2]; omega
  | succ n ih =>
    intro current visited hle
    cases current with
    | none => rw [pathSteps_noneId]; omega
    | some cur =>
      by_cases ht : truthy cur = true
      · by_cases ho : isObj cur = true
        · rw [pathSteps_unhashable _ _ _ _ _ ht ho]; omega
        · have ho2 : isObj cur = false := by
            cases h2 : isObj cur
            · rfl
            · exact absurd h2 ho
          by_cases hv : cur ∈ visited
          · rw [pathSteps_visited _ _ _ _ _ ho2 hv]; omega
          · rcases pathSteps_step nodes edges ctx cur visited ht ho2 hv with h | ⟨node, nxt, hn, h⟩
            · rw [h]; omega
            · have hmem := mem_nodeIds_of_node_map_get hn
              have hlt := length_filter_notMem_cons_lt (nodeIds nodes) cur visited hmem hv
              have hrec := ih nxt (cur :: visited) (by omega)
              rw [h]
              omega
      · have ht2 : truthy cur = false := by
          cases h2 : truthy cur
          · rfl
          · exact absurd h2 ht
        rw [pathSteps_falsy _ _ _ _ _ ht2]; omega

/-- Per-traversal step bound: the while loop runs at most `N + 1` iterations
where `N` is the number of nodes submitted. -/
theorem pathSteps_le (nodes edges : List PyDict) (ctx : PyDict)
    (current : Option JVal) (visited : List JVal) :
    pathSteps nodes edges ctx current visited ≤ nodes.length + 1 := by
  have h1 := pathSteps_le_aux nodes edges ctx
    ((nodeIds nodes).filter (fun v => decide (v ∉ visited))).length current visited le_rfl
  have h2 : ((nodeIds nodes).filter (fun v => decide (v ∉ visited))).length ≤
      (nodeIds nodes).length := List.length_filter_le _ _
  have h3 : (nodeIds nodes).length ≤ nodes.length := List.length_filterMap_le _ _
  omega


/-- Scenario A trigger node (spec field `kind` is the JSON key `type` the
code reads). -/
def at1 : PyDict :=
  [("id", JVal.str "t1"), ("type", JVal.str "trigger"),
   ("config", JVal.obj [("name", JVal.str "start")])]

/-- Scenario A condition node. -/
def ac1 : PyDict :=
  [("id", JVal.str "c1"), ("type", JVal.str "condition"),
   ("config", JVal.obj [("expr", JVal.str "ctx.age >= 18")])]

/-- Scenario A action node. -/
def aa1 : PyDict :=
  [("id", JVal.str "a1"), ("type", JVal.str "action"),
   ("config", JVal.obj [("name", JVal.str "send_message"), ("text", JVal.str "Welcome")])]

/-- Scenario A node list, from section 8 of the spec. -/
def scenarioAnodes : List PyDict := [at1, ac1, aa1]

/-- Scenario A edges t1 to c1 and c1 to a1. -/
def scenarioAedges : List PyDict :=
  [[("from", JVal.str "t1"), ("to", JVal.str "c1")],
   [("from", JVal.str "c1"), ("to", JVal.str "a1")]]

/-- Execution of Scenario A, for any payload: the condition expression
always raises AttributeError inside eval (a dict has no attribute `age`),
the engine swallows it as False, and the action never fires. -/
theorem scenarioA_exec (p : PyDict) :
    execute_flow scenarioAnodes scenarioAedges p =
      .ok (["Trigger: start", "Condition 'ctx.age >= 18' -> False"], p) := by
  have h1 : runPath scenarioAnodes scenarioAedges p (some (JVal.str "t1")) [] [] =
      runPath scenarioAnodes scenarioAedges p (some (JVal.str "c1"))
        [JVal.str "t1"] ([] ++ ["Trigger: start"]) :=
    runPath_cont scenarioAnodes scenarioAedges p (JVal.str "t1") [] [] at1
      ["Trigger: start"] (some (JVal.str "c1")) rfl rfl (by decide) rfl rfl rfl
  have h2 : runPath scenarioAnodes scenarioAedges p (some (JVal.str "c1"))
        [JVal.str "t1"] ["Trigger: start"] =
      .ok (["Trigger: start"] ++ ["Condition 'ctx.age >= 18' -> False"]) :=
    runPath_break scenarioAnodes scenarioAedges p (JVal.str "c1") [JVal.str "t1"]
      ["Trigger: start"] ac1 ["Condition 'ctx.age >= 18' -> False"]
      rfl rfl (by decide) rfl rfl
  have hrs : runStarts scenarioAnodes scenarioAedges p [at1] [] =
      .ok ["Trigger: start", "Condition 'ctx.age >= 18' -> False"] := by
    simp only [runStarts]
    rw [show dget at1 "id" = some (JVal.str "t1") from rfl, h1]
    simp only [List.nil_append]
    rw [h2]
    rfl
  have hstart : startNodes scenarioAnodes = [at1] := rfl
  unfold execute_flow
  rw [hstart, hrs]
  rfl

/-- Claim C1 (counterexample): Scenario A with payload age 21 does not
produce the claimed logs.  The full log list is the Trigger line and a
condition line reading "-> False"; neither the claimed "-> true" line nor
the action line occurs in it. -/
theorem C1_counterexample :
    execute_flow scenarioAnodes scenarioAedges [("age", JVal.int 21)] =
      .ok (["Trigger: start", "Condition 'ctx.age >= 18' -> False"],
        [("age", JVal.int 21)]) ∧
    "Condition 'ctx.age >= 18' -> true" ∉
      (["Trigger: start", "Condition 'ctx.age >= 18' -> False"] : List String) ∧
    "Action: send_message -> Welcome" ∉
      (["Trigger: start", "Condition 'ctx.age >= 18' -> False"] : List String) :=
  ⟨scenarioA_exec _, by decide, by decide⟩

/-- Claim C1 (amended): on Scenario A's graph both payloads (age 21 and
age 10) yield the logs "Trigger: start" and "Condition 'ctx.age >= 18' ->
False", and the action event is absent in both: `eval("ctx.age >= 18")`
raises AttributeError on the dict context, the engine treats the condition
as false, and Python renders booleans capitalised. -/
theorem C1_amended :
    execute_flow scenarioAnodes scenarioAedges [("age", JVal.int 21)] =
      .ok (["Trigger: start", "Condition 'ctx.age >= 18' -> False"],
        [("age", JVal.int 21)]) ∧
    execute_flow scenarioAnodes scenarioAedges [("age", JVal.int 10)] =
      .ok (["Trigger: start", "Condition 'ctx.age >= 18' -> False"],
        [("age", JVal.int 10)]) :=
  ⟨scenarioA_exec _, scenarioA_exec _⟩

/-- First of two nodes sharing the id t1. -/
def dupA : PyDict :=
  [("id", JVal.str "t1"), ("type", JVal.str "trigger"),
   ("config", JVal.obj [("name", JVal.str "a")])]

/-- Second node with the duplicated id t1; it shadows the first in the
node index. -/
def dupB : PyDict :=
  [("id", JVal.str "t1"), ("type", JVal.str "trigger"),
   ("config", JVal.obj [("name", JVal.str "b")])]

/-- A node list with a duplicated id. -/
def dupNodes : List PyDict := [dupA, dupB]

/-- Execution of the duplicated-id graph, for any payload: both triggers
start a traversal and both resolve to the later node. -/
theorem dup_exec (p : PyDict) :
    execute_flow dupNodes [] p = .ok (["Trigger: b", "Trigger: b"], p) := by
  have h1 : runPath dupNodes [] p (some (JVal.str "t1")) [] [] =
      runPath dupNodes [] p none [JVal.str "t1"] ([] ++ ["Trigger: b"]) :=
    runPath_cont dupNodes [] p (JVal.str "t1") [] [] dupB ["Trigger: b"] none
      rfl rfl (by decide) rfl rfl rfl
  have h2 : runPath dupNodes [] p (some (JVal.str "t1")) [] ["Trigger: b"] =
      runPath dupNodes [] p none [JVal.str "t1"] (["Trigger: b"] ++ ["Trigger: b"]) :=
    runPath_cont dupNodes [] p (JVal.str "t1") [] ["Trigger: b"] dupB ["Trigger: b"] none
      rfl rfl (by decide) rfl rfl rfl
  have hrs : runStarts dupNodes [] p [dupA, dupB] [] =
      .ok ["Trigger: b", "Trigger: b"] := by
    simp only [runStarts]
    rw [show dget dupA "id" = some (JVal.str "t1") from rfl, h1]
    simp only [List.nil_append, runPath_noneId]
    rw [show dget dupB "id" = some (JVal.str "t1") from rfl, h2]
    simp only [runPath_noneId]
    rfl
  have hstart : startNodes dupNodes = [dupA, dupB] := rfl
  unfold execute_flow
  rw [hstart, hrs]
  rfl

/-- Claim C2 (counterexample): a node list in which the id t1 appears
twice executes without any error and returns logs, refuting that graph
construction fails with MalformedGraphError and execution does not
proceed. -/
theorem C2_counterexample :
    execute_flow dupNodes [] [] = .ok (["Trigger: b", "Trigger: b"], []) :=
  dup_exec []

/-- Claim C2 (amended): duplicate node ids are not rejected; no
MalformedGraphError exists in the code.  The dict-comprehension index
keeps the last node for the id, execution proceeds and every traversal of
that id runs the later node. -/
theorem C2_amended (payload : PyDict) :
    execute_flow dupNodes [] payload = .ok (["Trigger: b", "Trigger: b"], payload) ∧
    node_map_get dupNodes (JVal.str "t1") = some dupB :=
  ⟨dup_exec payload, rfl⟩


/-- A single-trigger node list. -/
def trigNodes : List PyDict := [at1]

/-- A condition node whose expression is the unparsable string `(`. -/
def cParen : PyDict :=
  [("id", JVal.str "c1"), ("type", JVal.str "condition"),
   ("config", JVal.obj [("expr", JVal.str "(")])]

/-- A graph consisting only of the unparsable-condition node. -/
def parenNodes : List PyDict := [cParen]

/-- Execution of the unparsable-condition graph, for any payload. -/
theorem paren_exec (p : PyDict) :
    execute_flow parenNodes [] p = .ok (["Condition '(' -> False"], p) := by
  have h1 : runPath parenNodes [] p (some (JVal.str "c1")) [] [] =
      .ok ([] ++ ["Condition '(' -> False"]) :=
    runPath_break parenNodes [] p (JVal.str "c1") [] [] cParen
      ["Condition '(' -> False"] rfl rfl (by decide) rfl rfl
  have hrs : runStarts parenNodes [] p [cParen] [] =
      .ok ["Condition '(' -> False"] := by
    simp only [runStarts]
    rw [show dget cParen "id" = some (JVal.str "c1") from rfl, h1]
    rfl
  have hstart : startNodes parenNodes = [cParen] := rfl
  unfold execute_flow
  rw [hstart, hrs]
  rfl

set_option maxRecDepth 4000 in
/-- Claim C4 (counterexample): with the unparsable expression `(` the
evaluation fails (SyntaxError), yet the recorded event is
"Condition '(' -> False" and no event of the form
"Condition '(' failed to evaluate: ..." is recorded. -/
theorem C4_counterexample :
    execute_flow parenNodes [] [] = .ok (["Condition '(' -> False"], []) ∧
    pyEval "(" [] = .error (PyExc.exc "SyntaxError: invalid syntax in (") ∧
    (["Condition '(' -> False"].all
      (fun s => ! s.startsWith "Condition '(' failed to evaluate")) = true :=
  ⟨paren_exec [], rfl, by decide⟩

/-- Claim C4 (amended): whenever a condition node's string expression
fails to evaluate, the result is false, the recorded trace event is
"Condition '<expr>' -> False" (there is no failure-specific message
format), traversal of that path stops there, and the call still returns
normally. -/
theorem C4_amended (nodes edges : List PyDict) (ctx : PyDict) (cur : JVal)
    (visited : List JVal) (logs : List String) (node : PyDict)
    (kvs : List (String × JVal)) (e r : String)
    (ht : truthy cur = true) (ho : isObj cur = false) (hv : cur ∉ visited)
    (hn : node_map_get nodes cur = some node)
    (htype : dget node "type" = some (JVal.str "condition"))
    (hcfg : dgetD node "config" (JVal.obj []) = JVal.obj kvs)
    (hexpr : dgetD kvs "expr" (JVal.str "True") = JVal.str e)
    (herr : pyEval e ctx = .error (PyExc.exc r)) :
    runPath nodes edges ctx (some cur) visited logs =
      .ok (logs ++ ["Condition '" ++ e ++ "' -> False"]) := by
  have hok : condOk (JVal.str e) ctx = .ok false := by
    simp only [condOk]
    rw [herr]
  have hs : stepNode node ctx = .ok (["Condition '" ++ e ++ "' -> False"], true) := by
    unfold stepNode
    rw [htype, hcfg]
    simp only [cfgGetD, Option.some.injEq]
    rw [hexpr, hok]
    rw [if_neg (show ¬ (JVal.str "condition" = JVal.str "trigger") from by decide)]
    simp [pyStr, pyRepr, String.append_assoc]
  exact runPath_break nodes edges ctx cur visited logs node _ ht ho hv hn hs

set_option maxRecDepth 4000 in
/-- Witness for C4_amended at the concrete expression `(`. -/
theorem C4_amended_witness :
    runPath parenNodes [] [] (some (JVal.str "c1")) [] [] =
      .ok ([] ++ ["Condition '" ++ "(" ++ "' -> False"]) :=
  C4_amended parenNodes [] [] (JVal.str "c1") [] [] cParen
    [("expr", JVal.str "(")] "(" "SyntaxError: invalid syntax in ("
    rfl rfl (by decide) rfl rfl rfl rfl rfl


/-- Scenario B: a self-loop edge from t1 back to t1. -/
def scenarioBedges : List PyDict := [[("from", JVal.str "t1"), ("to", JVal.str "t1")]]

/-- Execution of Scenario B, for any payload: one Trigger line, then the
cycle guard stops the traversal. -/
theorem scenarioB_exec (p : PyDict) :
    execute_flow trigNodes scenarioBedges p = .ok (["Trigger: start"], p) := by
  have h1 : runPath trigNodes scenarioBedges p (some (JVal.str "t1")) [] [] =
      runPath trigNodes scenarioBedges p (some (JVal.str "t1")) [JVal.str "t1"]
        ([] ++ ["Trigger: start"]) :=
    runPath_cont trigNodes scenarioBedges p (JVal.str "t1") [] [] at1
      ["Trigger: start"] (some (JVal.str "t1")) rfl rfl (by decide) rfl rfl rfl
  have h2 : runPath trigNodes scenarioBedges p (some (JVal.str "t1")) [JVal.str "t1"]
      ["Trigger: start"] = .ok ["Trigger: start"] :=
    runPath_visited trigNodes scenarioBedges p (JVal.str "t1") [JVal.str "t1"]
      ["Trigger: start"] (by decide) (by decide)
  have hrs : runStarts trigNodes scenarioBedges p [at1] [] = .ok ["Trigger: start"] := by
    simp only [runStarts]
    rw [show dget at1 "id" = some (JVal.str "t1") from rfl, h1]
    simp only [List.nil_append]
    rw [h2]
  have hstart : startNodes trigNodes = [at1] := rfl
  unfold execute_flow
  rw [hstart, hrs]
  rfl

/-- Claim C5: every traversal performs at most N+1 loop iterations, N the
number of nodes, for every graph and start state; and on Scenario B's
self-loop graph the execution returns exactly one "Trigger: start" log and
the traversal runs exactly one iteration, never re-executing the node. -/
theorem C5_cycle_termination :
    (∀ (nodes edges : List PyDict) (ctx : PyDict) (current : Option JVal)
        (visited : List JVal),
      pathSteps nodes edges ctx current visited ≤ nodes.length + 1) ∧
    execute_flow trigNodes scenarioBedges [] = .ok (["Trigger: start"], []) ∧
    pathSteps trigNodes scenarioBedges [] (some (JVal.str "t1")) [] = 1 := by
  refine ⟨pathSteps_le, scenarioB_exec [], ?_⟩
  have h1 : pathSteps trigNodes scenarioBedges [] (some (JVal.str "t1")) [] =
      1 + pathSteps trigNodes scenarioBedges [] (some (JVal.str "t1")) [JVal.str "t1"] :=
    pathSteps_cont trigNodes scenarioBedges [] (JVal.str "t1") [] at1
      ["Trigger: start"] (some (JVal.str "t1")) rfl rfl (by decide) rfl rfl rfl
  rw [h1, pathSteps_visited trigNodes scenarioBedges [] (JVal.str "t1")
    [JVal.str "t1"] (by decide) (by decide)]

/-- Claim C6: when a condition node's expression evaluates to false the
traversal returns immediately after recording the condition line: no node
past the condition on this path is visited and no further trace event is
recorded for this path (the caller proceeds with the next start node). -/
theorem C6_condition_short_circuit (nodes edges : List PyDict) (ctx : PyDict)
    (cur : JVal) (visited : List JVal) (logs : List String) (node : PyDict)
    (kvs : List (String × JVal)) (cond : JVal)
    (ht : truthy cur = true) (ho : isObj cur = false) (hv : cur ∉ visited)
    (hn : node_map_get nodes cur = some node)
    (htype : dget node "type" = some (JVal.str "condition"))
    (hcfg : dgetD node "config" (JVal.obj []) = JVal.obj kvs)
    (hexpr : dgetD kvs "expr" (JVal.str "True") = cond)
    (hfalse : condOk cond ctx = .ok false) :
    runPath nodes edges ctx (some cur) visited logs =
      .ok (logs ++ ["Condition '" ++ pyStr cond ++ "' -> False"]) := by
  have hs : stepNode node ctx =
      .ok (["Condition '" ++ pyStr cond ++ "' -> False"], true) := by
    unfold stepNode
    rw [htype, hcfg]
    simp only [cfgGetD, Option.some.injEq]
    rw [hexpr, hfalse]
    rw [if_neg (show ¬ (JVal.str "condition" = JVal.str "trigger") from by decide)]
    rw [if_pos trivial]
    show Except.ok
        (["Condition '" ++ pyStr cond ++ "' -> " ++ pyStr (JVal.bool false)], !false) =
      Except.ok (["Condition '" ++ pyStr cond ++ "' -> False"], true)
    rw [show ("Condition '" ++ pyStr cond ++ "' -> " ++ pyStr (JVal.bool false)) =
        "Condition '" ++ pyStr cond ++ "' -> False" from by
      rw [String.append_assoc]
      rfl]
    rfl
  exact runPath_break nodes edges ctx cur visited logs node _ ht ho hv hn hs

/-- A condition node whose expression `1 > 2` evaluates to False. -/
def cFalse : PyDict :=
  [("id", JVal.str "c1"), ("type", JVal.str "condition"),
   ("config", JVal.obj [("expr", JVal.str "1 > 2")])]

set_option maxRecDepth 4000 in
/-- Witness for C6_condition_short_circuit at the concrete expression
`1 > 2`. -/
theorem C6_witness :
    runPath [cFalse] [] [] (some (JVal.str "c1")) [] [] =
      .ok ([] ++ ["Condition '" ++ pyStr (JVal.str "1 > 2") ++ "' -> False"]) :=
  C6_condition_short_circuit [cFalse] [] [] (JVal.str "c1") [] [] cFalse
    [("expr", JVal.str "1 > 2")] (JVal.str "1 > 2")
    rfl rfl (by decide) rfl rfl rfl rfl rfl

/-- Claim C7: executing a graph with zero nodes returns empty logs and the
payload unchanged as the context, for every payload and edge list. -/
theorem C7_empty_graph (edges : List PyDict) (payload : PyDict) :
    execute_flow [] edges payload = .ok ([], payload) := rfl

/-- Claim C8: the successor of a node is decided by the earliest edge in
the input sequence whose `from` equals the current id: edges after a
matching one never change the outcome, and when no earlier edge matches,
the first matching edge's `to` field is followed (errors when absent). -/
theorem C8_first_edge_wins (cur : JVal) (es1 es2 : List PyDict) (e : PyDict)
    (hmatch : dget e "from" = some cur) :
    nextCurrent (es1 ++ e :: es2) cur = nextCurrent (es1 ++ [e]) cur ∧
    (next_edges es1 cur = [] →
      nextCurrent (es1 ++ e :: es2) cur =
        (match dget e "to" with
         | some v => .ok (some v)
         | none => .error "KeyError: to")) := by
  have hfe : next_edges (es1 ++ e :: es2) cur =
      next_edges es1 cur ++ e :: next_edges es2 cur := by
    simp [next_edges, List.filter_append, List.filter_cons, hmatch]
  have hfe2 : next_edges (es1 ++ [e]) cur = next_edges es1 cur ++ [e] := by
    simp [next_edges, List.filter_append, List.filter_cons, hmatch]
  constructor
  · unfold nextCurrent
    rw [hfe, hfe2]
    cases next_edges es1 cur <;> rfl
  · intro hnil
    unfold nextCurrent
    rw [hfe, hnil]
    rfl

/-- First edge out of node x. -/
def edgeXa : PyDict := [("from", JVal.str "x"), ("to", JVal.str "a")]
/-- Second edge out of node x (ignored by the engine). -/
def edgeXb : PyDict := [("from", JVal.str "x"), ("to", JVal.str "b")]
/-- An edge out of an unrelated node y. -/
def edgeYc : PyDict := [("from", JVal.str "y"), ("to", JVal.str "c")]

/-- Witness for C8_first_edge_wins with two edges out of node x. -/
theorem C8_witness :
    (nextCurrent ([edgeXa] ++ edgeXb :: [edgeYc]) (JVal.str "x") =
      nextCurrent ([edgeXa] ++ [edgeXb]) (JVal.str "x")) ∧
    (next_edges [edgeXa] (JVal.str "x") = [] →
      nextCurrent ([edgeXa] ++ edgeXb :: [edgeYc]) (JVal.str "x") =
        (match dget edgeXb "to" with
         | some v => .ok (some v)
         | none => .error "KeyError: to")) :=
  C8_first_edge_wins (JVal.str "x") [edgeXa] [edgeYc] edgeXb rfl

/-- Claim C9: the start nodes are exactly the nodes whose `type` is
trigger, in input order; when none exists the first node of the input is
the single start node, and an empty node list yields no start node at
all. -/
theorem C9_start_selection (nodes : List PyDict) :
    startNodes nodes =
      (if nodes.any (fun n => decide (dget n "type" = some (JVal.str "trigger")))
       then nodes.filter (fun n => decide (dget n "type" = some (JVal.str "trigger")))
       else nodes.take 1) ∧
    startNodes ([] : List PyDict) = [] := by
  constructor
  · by_cases ha : nodes.any (fun n => decide (dget n "type" = some (JVal.str "trigger"))) = true
    · rw [if_pos ha]
      rcases List.any_eq_true.mp ha with ⟨x, hx, hpx⟩
      have hne : nodes.filter
          (fun n => decide (dget n "type" = some (JVal.str "trigger"))) ≠ [] := by
        intro h0
        have hmem : x ∈ nodes.filter
            (fun n => decide (dget n "type" = some (JVal.str "trigger"))) :=
          List.mem_filter.mpr ⟨hx, hpx⟩
        rw [h0] at hmem
        cases hmem
      unfold startNodes
      rw [if_neg hne]
    · rw [if_neg ha]
      have hnil : nodes.filter
          (fun n => decide (dget n "type" = some (JVal.str "trigger"))) = [] := by
        rw [List.filter_eq_nil_iff]
        intro x hx hpx
        exact ha (List.any_eq_true.mpr ⟨x, hx, hpx⟩)
      unfold startNodes
      rw [if_pos hnil]
  · rfl

/-- Claim C10: visiting a node whose `type` is none of trigger, condition
or action records no trace event and does not stop the traversal: the
loop continues with the target of the node's first outgoing edge. -/
theorem C10_unknown_kind (nodes edges : List PyDict) (ctx : PyDict) (cur : JVal)
    (visited : List JVal) (logs : List String) (node : PyDict)
    (ht : truthy cur = true) (ho : isObj cur = false) (hv : cur ∉ visited)
    (hn : node_map_get nodes cur = some node)
    (h1 : dget node "type" ≠ some (JVal.str "trigger"))
    (h2 : dget node "type" ≠ some (JVal.str "condition"))
    (h3 : dget node "type" ≠ some (JVal.str "action")) :
    stepNode node ctx = .ok ([], false) ∧
    runPath nodes edges ctx (some cur) visited logs =
      (match nextCurrent edges cur with
       | .error m => .error m
       | .ok nxt => runPath nodes edges ctx nxt (cur :: visited) logs) := by
  have hs : stepNode node ctx = .ok ([], false) := by
    unfold stepNode
    rw [if_neg h1, if_neg h2, if_neg h3]
  refine ⟨hs, ?_⟩
  cases he : nextCurrent edges cur with
  | error m =>
    exact runPath_edgeError nodes edges ctx cur visited logs node [] m ht ho hv hn hs he
  | ok nxt =>
    have hc := runPath_cont nodes edges ctx cur visited logs node [] nxt ht ho hv hn hs he
    rw [hc]
    simp

/-- A node of unknown type webhook. -/
def wUnknown : PyDict := [("id", JVal.str "t1"), ("type", JVal.str "webhook")]
/-- An action node reachable from the unknown-type node. -/
def wAction : PyDict :=
  [("id", JVal.str "a1"), ("type", JVal.str "action"),
   ("config", JVal.obj [("name", JVal.str "poke")])]
/-- Graph with an unknown-type start node. -/
def wNodes : List PyDict := [wUnknown, wAction]
/-- Edge from the unknown-type node to the action node. -/
def wEdges : List PyDict := [[("from", JVal.str "t1"), ("to", JVal.str "a1")]]

/-- Witness for C10_unknown_kind at the concrete webhook node. -/
theorem C10_witness :
    stepNode wUnknown [] = .ok ([], false) ∧
    runPath wNodes wEdges [] (some (JVal.str "t1")) [] [] =
      runPath wNodes wEdges [] (some (JVal.str "a1")) [JVal.str "t1"] [] :=
  C10_unknown_kind wNodes wEdges [] (JVal.str "t1") [] [] wUnknown
    rfl rfl (by decide) rfl (by decide) (by decide) (by decide)

end AutomationEngine
